import Mathlib

/-!
Verification of the license-gen-cli core: the license catalog
(`license/src/license.rs`), the BSD and MIT template rendering
(`src/texts/bsd.rs`, `src/texts/mit.rs`), the prompt loops and the
file-output pipeline (`src/io.rs`).  Rust strings are modelled as
`String` or `List Char`, fallible reads as an event list, and the
stateful file rewriting as an explicit trace of filesystem states.
-/

namespace LicenseGen

/-! ## Line splitting, as Rust `str::lines` and `BufRead::lines` do it

Both iterators split at a line feed, drop that line feed, and drop one
carriage return directly before it; a final fragment with no line feed
is yielded unchanged, and an empty input yields no lines. -/

/-- Drop a single trailing carriage return, as the line iterators do
for each piece that was terminated by a line feed. -/
def stripCR (l : List Char) : List Char :=
  if l.getLast? = some '\r' then l.dropLast else l

/-- Accumulator version of the line splitter: `acc` holds the current
line read so far, in reverse. -/
def rustLinesAux : List Char → List Char → List (List Char)
  | acc, [] => if acc.isEmpty then [] else [acc.reverse]
  | acc, c :: rest =>
    if c = '\n' then stripCR acc.reverse :: rustLinesAux [] rest
    else rustLinesAux (c :: acc) rest

/-- The lines of a byte sequence, with the semantics shared by Rust's
`str::lines` and `BufRead::lines`. -/
def rustLines (s : List Char) : List (List Char) :=
  rustLinesAux [] s

/-- Join lines back, terminating every line with a line feed; this is
what a sequence of `writeln!` calls produces. -/
def unlines (ls : List (List Char)) : List Char :=
  (ls.map (fun l => l ++ ['\n'])).flatten

/-! ## Character-level string operations

Structural models of the string operations the Rust code applies to
operator input: `str::trim`, `str::to_lowercase`, numeric parsing and
comma splitting (whitespace and case folding restricted to ASCII,
which covers every answer the prompts compare against). -/

/-- ASCII whitespace. -/
def isSpaceChar (c : Char) : Bool :=
  c == ' ' || c == '\t' || c == '\n' || c == '\r'

/-- `str::trim`: drop leading and trailing whitespace. -/
def rustTrim (s : String) : String :=
  String.mk (((s.data.dropWhile isSpaceChar).reverse.dropWhile isSpaceChar).reverse)

/-- Value of a non-empty all-digit sequence, accumulator style. -/
def decDigitsAux : List Char → Nat → Option Nat
  | [], acc => some acc
  | c :: rest, acc =>
    if 48 ≤ c.toNat && c.toNat ≤ 57 then decDigitsAux rest (acc * 10 + (c.toNat - 48))
    else none

/-- Value of a digit sequence; empty or non-digit input fails. -/
def decDigits? : List Char → Option Nat
  | [] => none
  | l => decDigitsAux l 0

/-- ASCII lowercasing of one character. -/
def lowerChar (c : Char) : Char :=
  if 65 ≤ c.toNat && c.toNat ≤ 90 then Char.ofNat (c.toNat + 32) else c

/-- `str::to_lowercase` (ASCII). -/
def lowerStr (s : String) : String :=
  String.mk (s.data.map lowerChar)

/-- Split at every comma, keeping empty pieces, accumulator style. -/
def splitCommaAux : List Char → List Char → List String
  | acc, [] => [String.mk acc.reverse]
  | acc, c :: rest =>
    if c = ',' then String.mk acc.reverse :: splitCommaAux [] rest
    else splitCommaAux (c :: acc) rest

/-- `str::split(',')`. -/
def splitComma (s : String) : List String :=
  splitCommaAux [] s.data

/-- Join strings with a separator. -/
def joinWith (sep : String) : List String → String
  | [] => ""
  | [x] => x
  | x :: rest => x ++ sep ++ joinWith sep rest

/-! ## `write_comment` (src/io.rs)

The function writes, into a fresh temporary file, one line
`<comment> <line>` per line of the comment block, then every line of
the original file, flushes, removes the original and renames the
temporary file over it.  `write_comment_bytes` is the byte content the
temporary file holds when complete. -/

/-- Byte content produced by `write_comment`: the comment block lines,
each prefixed with the comment marker and one space, then the lines
read back from the original file, every line `writeln!`-terminated. -/
def write_comment_bytes (comment comment_block orig : List Char) : List Char :=
  unlines ((rustLines comment_block).map (fun l => comment ++ ' ' :: l))
    ++ unlines (rustLines orig)

/-- A filesystem state restricted to the two paths `write_comment`
touches: the target file and the temporary file.  `none` means the
path does not exist. -/
structure FsState where
  out : Option (List Char)
  tmp : Option (List Char)
deriving DecidableEq

/-- The successive filesystem states traversed by a complete run of
`write_comment`: the initial state, the state after creating the
temporary file, one state per written line, the state after
`fs::remove_file` on the target, and the state after `fs::rename`.
(`flush` changes no file content.) -/
def write_comment_trace (comment comment_block orig : List Char) : List FsState :=
  let hdr := (rustLines comment_block).map (fun l => comment ++ ' ' :: l)
  let body := rustLines orig
  let hdrStates := (List.range (hdr.length + 1)).map
    (fun i => FsState.mk (some orig) (some (unlines (hdr.take i))))
  let bodyStates := (List.range body.length).map
    (fun i => FsState.mk (some orig) (some (unlines hdr ++ unlines (body.take (i + 1)))))
  FsState.mk (some orig) none ::
    hdrStates ++ bodyStates ++
    [FsState.mk none (some (write_comment_bytes comment comment_block orig)),
     FsState.mk (some (write_comment_bytes comment comment_block orig)) none]

/-- The atomicity property claimed of `write_comment`: at every
intermediate state the target path holds either the full original
content or the full replacement. -/
def write_comment_atomic (comment comment_block orig : List Char) : Prop :=
  ∀ st ∈ write_comment_trace comment comment_block orig,
    st.out = some orig ∨ st.out = some (write_comment_bytes comment comment_block orig)

/-! ## The prompt loops (src/io.rs)

`prompt` and `prompt_optional` read one line per iteration.  Reading
can fail (`Err`, the process exits), reach end of input (`Ok(0)`, the
buffer stays empty), or yield a line.  The read input is trimmed and
then parsed; `FromStr` is modelled by a partial parse function. -/

/-- One read off the operator channel. -/
inductive ReadResult where
  | err
  | eof
  | line (s : String)
deriving DecidableEq

/-- Result of one iteration of a prompt loop body. -/
inductive StepResult (α : Type) where
  | ret (a : α)
  | exit
  | retry
deriving DecidableEq

/-- One iteration of `prompt`: a read error exits the process; end of
input leaves the buffer empty, so the empty string is trimmed (to
itself) and parsed; otherwise the line is trimmed and parsed, and a
parse failure prints a diagnostic and retries. -/
def promptStep {α : Type} (parse : String → Option α) : ReadResult → StepResult α
  | .err => .exit
  | .eof =>
    match parse "" with
    | some v => .ret v
    | none => .retry
  | .line s =>
    match parse (rustTrim s) with
    | some v => .ret v
    | none => .retry

/-- Outcome of running a prompt loop (or a whole generation) against a
finite prefix of the operator channel: a value plus the unconsumed
events, a process exit, or still waiting after all supplied events. -/
inductive RunOut (α : Type) where
  | ok (a : α) (rest : List ReadResult)
  | exited
  | pending
deriving DecidableEq

/-- The `prompt` loop over a finite prefix of the operator channel. -/
def promptRun {α : Type} (parse : String → Option α) : List ReadResult → RunOut α
  | [] => .pending
  | r :: rest =>
    match promptStep parse r with
    | .ret v => .ok v rest
    | .exit => .exited
    | .retry => promptRun parse rest

/-- One iteration of `prompt_optional`: a read error exits; an empty
trimmed input (also at end of input) returns absence before any parse
is attempted; otherwise parse, retrying on failure. -/
def promptOptionalStep {α : Type} (parse : String → Option α) : ReadResult → StepResult (Option α)
  | .err => .exit
  | .eof => .ret none
  | .line s =>
    if rustTrim s = "" then .ret none
    else
      match parse (rustTrim s) with
      | some v => .ret (some v)
      | none => .retry

/-- The `prompt_optional` loop over a finite prefix of the channel. -/
def promptOptionalRun {α : Type} (parse : String → Option α) : List ReadResult → RunOut (Option α)
  | [] => .pending
  | r :: rest =>
    match promptOptionalStep parse r with
    | .ret v => .ok v rest
    | .exit => .exited
    | .retry => promptOptionalRun parse rest

/-! ## The license catalog (license/src/license.rs)

`Display` for the amendments and for `Licenses`, and the clap
`ValueEnum` instance: `value_variants` lists the twenty selectable
variants and `to_possible_value` exposes each one under its `Display`
string, so argument resolution picks the first variant whose display
string equals the given token (exact match). -/

/-- Version amendments of the GNU family. -/
inductive VersionAmmendment where
  | none
  | only
  | orLater
deriving DecidableEq

/-- Display suffix of a version amendment. -/
def VersionAmmendment.fmt : VersionAmmendment → String
  | .none => ""
  | .only => "-only"
  | .orLater => "-or-later"

/-- Sub-amendments of BSD-3-Clause. -/
inductive BsdAmmendment where
  | none
  | attribution
  | modification
  | noMilitary
deriving DecidableEq

/-- Display suffix of a BSD amendment. -/
def BsdAmmendment.fmt : BsdAmmendment → String
  | .none => ""
  | .attribution => "-Attribution"
  | .modification => "-Modification"
  | .noMilitary => "-No-Military-License"

/-- The supported licenses. -/
inductive Licenses where
  | Mit
  | Agpl3 (a : VersionAmmendment)
  | Gpl3 (a : VersionAmmendment)
  | Lgpl3 (a : VersionAmmendment)
  | Apache2
  | Bsl1
  | Unlicense
  | Cddl1
  | Epl2
  | Mpl2
  | Bsd3Clause (a : BsdAmmendment)
deriving DecidableEq

/-- The `Display` string of a license variant. -/
def Licenses.fmt : Licenses → String
  | .Mit => "MIT"
  | .Agpl3 a => "AGPL-3.0" ++ a.fmt
  | .Gpl3 a => "GPL-3.0" ++ a.fmt
  | .Lgpl3 a => "LGPL-3.0" ++ a.fmt
  | .Apache2 => "Apache-2.0"
  | .Bsl1 => "BSL-1.0"
  | .Unlicense => "Unlicense"
  | .Cddl1 => "CDDL-1.0"
  | .Epl2 => "EPL-2.0"
  | .Mpl2 => "MPL-2.0"
  | .Bsd3Clause a => "BSD-3-Clause" ++ a.fmt

/-- The closed catalog given by the `ValueEnum` instance. -/
def Licenses.value_variants : List Licenses :=
  [.Mit,
   .Agpl3 .none, .Agpl3 .only, .Agpl3 .orLater,
   .Gpl3 .none, .Gpl3 .only, .Gpl3 .orLater,
   .Lgpl3 .none, .Lgpl3 .only, .Lgpl3 .orLater,
   .Apache2, .Bsl1, .Unlicense, .Cddl1, .Epl2, .Mpl2,
   .Bsd3Clause .none, .Bsd3Clause .attribution,
   .Bsd3Clause .modification, .Bsd3Clause .noMilitary]

/-- Resolution of a command-line token to a variant: the first catalog
entry whose possible value (its display string) equals the token. -/
def Licenses.resolve (s : String) : Option Licenses :=
  Licenses.value_variants.find? (fun v => v.fmt == s)

/-! ## Rendered output (src/texts/mod.rs) -/

/-- The output of a rendering step: the license body, the SPDX comment
block, the optional amendment text, the optional interactive notice. -/
structure LicenseTexts where
  text : String
  comment : String
  alt : Option String
  interactive : Option String
deriving DecidableEq

/-! ## MIT rendering (src/texts/mit.rs) -/

/-- The MIT template with its two substitution points filled in. -/
def mit_body (year : Nat) (fullname : String) : String :=
  "MIT License\n\nCopyright (c) " ++ toString year ++ " " ++ fullname ++
  "\n\nPermission is hereby granted, free of charge, to any person obtaining a copy\nof this software and associated documentation files (the \"Software\"), to deal\nin the Software without restriction, including without limitation the rights\nto use, copy, modify, merge, publish, distribute, sublicense, and/or sell\ncopies of the Software, and to permit persons to whom the Software is\nfurnished to do so, subject to the following conditions:\n\nThe above copyright notice and this permission notice shall be included in all\ncopies or substantial portions of the Software.\n\nTHE SOFTWARE IS PROVIDED \"AS IS\", WITHOUT WARRANTY OF ANY KIND, EXPRESS OR\nIMPLIED, INCLUDING BUT NOT LIMITED TO THE WARRANTIES OF MERCHANTABILITY,\nFITNESS FOR A PARTICULAR PURPOSE AND NONINFRINGEMENT. IN NO EVENT SHALL THE\nAUTHORS OR COPYRIGHT HOLDERS BE LIABLE FOR ANY CLAIM, DAMAGES OR OTHER\nLIABILITY, WHETHER IN AN ACTION OF CONTRACT, TORT OR OTHERWISE, ARISING FROM,\nOUT OF OR IN CONNECTION WITH THE SOFTWARE OR THE USE OR OTHER DEALINGS IN THE\nSOFTWARE.\n"

/-- `generate_mit_license`, with the two prompted answers lifted to
parameters. -/
def generate_mit_license (year : Nat) (fullname : String) : LicenseTexts :=
  { text := mit_body year fullname
    comment := "SPDX-License-Identifier: MIT"
    alt := none
    interactive := none }

/-! ## BSD rendering (src/texts/bsd.rs)

The skeleton `TEXT` has substitution points for the year, the full
name, the fourth-clause fragment and the postamble.  The
fourth-clause fragment of the Attribution variant itself substitutes
the organization (falling back to the full name) and the optional
website; the handlebars `#if` helper treats a missing value and an
empty string as false. -/

/-- Truthiness of an optional string under the handlebars `#if`
helper: absent and empty are false. -/
def hb_truthy : Option String → Bool
  | none => false
  | some s => !(s == "")

/-- The literal part of the Attribution fourth clause before the
quoted developer name. -/
def attr_ack_open : String :=
  "4. Redistributions of any form whatsoever must retain the following \nacknowledgment: \x27This product includes software developed by the \n\""

/-- The acknowledgment part of the Attribution fourth clause, up to
and including the closing double quote around the developer name. -/
def attr_ack (fullname : String) (organization : Option String) : String :=
  attr_ack_open ++
  (if hb_truthy organization then organization.getD "" else fullname) ++ "\""

/-- The rendered `ATTRIBUTION.fourth` fragment. -/
def attribution_fourth (fullname : String) (organization website : Option String) : String :=
  attr_ack fullname organization ++
  (if hb_truthy website then " (" ++ website.getD "" ++ ")" else "") ++ ".\x27"

/-- The `MODIFICATION.fourth` fragment (no substitution points). -/
def modification_fourth : String :=
  "4. If any files are modified, you must cause the modified files to \ncarry prominent notices stating that you changed the files and the \ndate of any change."

/-- The `NO_MILITARY.postamble` fragment. -/
def no_military_postamble : String :=
  "\nYOU ACKNOWLEDGE THAT THIS SOFTWARE IS NOT DESIGNED, LICENSED OR INTENDED \nFOR USE IN THE DESIGN, CONSTRUCTION, OPERATION OR MAINTENANCE OF ANY MILITARY \nFACILITY.\n"

/-- The part of the BSD skeleton before the fourth-clause fragment. -/
def bsd_text_head (year : Nat) (fullname : String) : String :=
  "Copyright (c) " ++ toString year ++ " " ++ fullname ++
  ".\n\nRedistribution and use in source and binary forms, with or without \nmodification, are permitted provided that the following conditions are \nmet:\n\n1. Redistributions of source code must retain the above copyright \n   notice, this list of conditions and the following disclaimer.\n2. Redistributions in binary form must reproduce the above copyright \n   notice, this list of conditions and the following disclaimer in the \n   documentation and/or other materials provided with the distribution.\n3. Neither the name of the copyright holder nor the names of its \n   contributors may be used to endorse or promote products derived from \n   this software without specific prior written permission.\n"

/-- The part of the BSD skeleton between the fourth-clause fragment
and the postamble. -/
def bsd_text_tail : String :=
  "\n\nTHIS SOFTWARE IS PROVIDED BY THE COPYRIGHT HOLDERS AND CONTRIBUTORS \n\"AS IS\" AND ANY EXPRESS OR IMPLIED WARRANTIES, INCLUDING, BUT NOT \nLIMITED TO, THE IMPLIED WARRANTIES OF MERCHANTABILITY AND FITNESS FOR \nA PARTICULAR PURPOSE ARE DISCLAIMED. IN NO EVENT SHALL THE \nCOPYRIGHT HOLDER OR CONTRIBUTORS BE LIABLE FOR ANY DIRECT, INDIRECT, \nINCIDENTAL, SPECIAL, EXEMPLARY, OR CONSEQUENTIAL DAMAGES (INCLUDING, BUT \nNOT LIMITED TO, PROCUREMENT OF SUBSTITUTE GOODS OR SERVICES; LOSS OF USE, \nDATA, OR PROFITS; OR BUSINESS INTERRUPTION) HOWEVER CAUSED AND ON ANY \nTHEORY OF LIABILITY, WHETHER IN CONTRACT, STRICT LIABILITY, OR TORT \n(INCLUDING NEGLIGENCE OR OTHERWISE) ARISING IN ANY WAY OUT OF THE USE OF \nTHIS SOFTWARE, EVEN IF ADVISED OF THE POSSIBILITY OF SUCH DAMAGE.\n"

/-- The BSD skeleton `TEXT` with the fourth-clause fragment and the
postamble spliced in (rendered verbatim, with no standalone-line
whitespace trimming around the spliced fragment). -/
def bsd_text (year : Nat) (fullname : String) (fourth postamble : String) : String :=
  bsd_text_head year fullname ++ fourth ++ bsd_text_tail ++ postamble ++ "\n"

/-- `generate_base_license`: the empty `NONE` fragments. -/
def generate_base_license (year : Nat) (fullname : String) : LicenseTexts :=
  { text := bsd_text year fullname "" ""
    comment := "SPDX-License-Identifier: BSD-3-Clause"
    alt := none
    interactive := none }

/-- `generate_attribution_license`, with its two optional prompted
answers lifted to parameters. -/
def generate_attribution_license (year : Nat) (fullname : String)
    (organization website : Option String) : LicenseTexts :=
  { text := bsd_text year fullname (attribution_fourth fullname organization website) ""
    comment := "SPDX-License-Identifier: BSD-3-Clause-Attribution"
    alt := none
    interactive := none }

/-- `generate_modification_license`. -/
def generate_modification_license (year : Nat) (fullname : String) : LicenseTexts :=
  { text := bsd_text year fullname modification_fourth ""
    comment := "SPDX-License-Identifier: BSD-3-Clause-Modification"
    alt := none
    interactive := none }

/-- `generate_no_military_license`: the comment string is exactly the
one the source embeds. -/
def generate_no_military_license (year : Nat) (fullname : String) : LicenseTexts :=
  { text := bsd_text year fullname "" no_military_postamble
    comment := "SPDX-License-Identifier: BSD-3-Clause-No-Military"
    alt := none
    interactive := none }

/-! ## The output pipeline (src/io.rs, `output` and `iterate_dir`)

`output` matches on `(add_comment, exists, is_dir, is_file)`.  The
single-file arm and the two bad-path arms `return` early, skipping the
license file; the directory arm calls `iterate_dir`, whose failures
only end the iteration — `output` then falls through and still writes
the license file.  The filesystem is abstracted to the outcome of each
probed operation. -/

/-- Outcome of one directory entry: the entry read fails, or the entry
is annotated successfully, or its `write_comment` fails. -/
inductive EntryOutcome where
  | readErr
  | okWrite
  | failWrite
deriving DecidableEq

/-- What the source path turns out to be, with the outcomes of the
operations each case performs. -/
inductive SourceStatus where
  | missing
  | file (writeOk : Bool)
  | dir (readOk : Bool) (entries : List EntryOutcome)
  | other
deriving DecidableEq

/-- Observable effects of one `output` invocation. -/
structure OutputEffects where
  annotated : Nat
  annotFailed : Bool
  licenseWritten : Bool
  printedCommentOnly : Bool
deriving DecidableEq

/-- `iterate_dir` over the entry outcomes: the number of files
annotated and whether the loop ran to completion; a failed entry read
or a failed `write_comment` returns at once. -/
def iterate_dir : List EntryOutcome → Nat × Bool
  | [] => (0, true)
  | .okWrite :: rest =>
    let p := iterate_dir rest
    (p.1 + 1, p.2)
  | .failWrite :: _ => (0, false)
  | .readErr :: _ => (0, false)

/-- `output`: the annotation phase followed (except on the early
returns) by opening, writing and flushing the license file.  The
license file counts as written when the open and the write succeed. -/
def outputRun (add_comment : Bool) (src : SourceStatus)
    (openOk writeOk _flushOk : Bool) : OutputEffects :=
  match add_comment, src with
  | true, .dir readOk entries =>
    let p := if readOk then iterate_dir entries else (0, false)
    { annotated := p.1, annotFailed := !p.2
      licenseWritten := openOk && writeOk, printedCommentOnly := false }
  | true, .file wOk =>
    if wOk then
      { annotated := 1, annotFailed := false
        licenseWritten := openOk && writeOk, printedCommentOnly := false }
    else
      { annotated := 0, annotFailed := true
        licenseWritten := false, printedCommentOnly := false }
  | true, .other =>
    { annotated := 0, annotFailed := true
      licenseWritten := false, printedCommentOnly := false }
  | true, .missing =>
    { annotated := 0, annotFailed := true
      licenseWritten := false, printedCommentOnly := false }
  | false, _ =>
    { annotated := 0, annotFailed := false
      licenseWritten := openOk && writeOk, printedCommentOnly := true }

/-! ## Interactive generation (src/license/src/license.rs, src/texts)

`generate_license_text` dispatches to one generator per family; each
generator asks its prompts in order and then renders.  A generator is
modelled as a function from the operator channel prefix to a
`RunOut`: the rendered value plus the unconsumed events, or a process
exit, or still waiting for input.

The text modules for the GNU, Apache, BSL, Unlicense, CDDL, EPL and
MPL families are not present under src/; their prompt sequences and
renderings below are marked `Modelled from the spec` and follow the
spec text (prompt order from its Prompt Protocol section, rendered
fields from its Template Renderer and External Interfaces sections,
with the fixed skeletons abridged to their documented substitution
points). -/

/-- A generation step consuming operator-channel events. -/
def GenM (α : Type) : Type := List ReadResult → RunOut α

/-- Sequencing of generation steps. -/
def GenM.bind {α β : Type} (m : GenM α) (f : α → GenM β) : GenM β := fun ins =>
  match m ins with
  | .ok a rest => f a rest
  | .exited => .exited
  | .pending => .pending

/-- A step that consumes nothing and yields a value. -/
def GenM.pure {α : Type} (a : α) : GenM α := fun ins => .ok a ins

/-- `u16::from_str` on trimmed input: an optional leading plus sign,
then decimal digits, value below 2^16. -/
def u16Parse (s : String) : Option Nat :=
  let digits := match s.data with
    | '+' :: rest => rest
    | l => l
  match decDigits? digits with
  | some n => if n < 65536 then some n else none
  | none => none

/-- `String::from_str`: never fails; the prompt loops hand it the
trimmed input. -/
def strParse (s : String) : Option String := some s

/-- The accepted answers of `prompt_bool` and `prompt_optional_bool`
(matched after lowercasing); any other non-empty answer retries. -/
def boolParse (s : String) : Option Bool :=
  match lowerStr s with
  | "yes" => some true
  | "y" => some true
  | "true" => some true
  | "t" => some true
  | "no" => some false
  | "n" => some false
  | "false" => some false
  | "f" => some false
  | _ => none

/-- The extra answers asked of AGPL and GPL (not LGPL). -/
structure GnuExtra where
  version : Option String
  description : String
  interactive : Bool
deriving DecidableEq

/-- The answers of the signed-release branch of the GNU families. -/
structure SignedRelease where
  organization : String
  signer : String
  position : String
  day : Nat
  month : String
  year : Nat
deriving DecidableEq

/-- The per-variant prompt answers. -/
inductive Answers where
  | basic (year : Nat) (fullname : String)
  | attribution (year : Nat) (fullname : String) (organization website : Option String)
  | gnu (year : Nat) (fullname progName : String)
      (extra : Option GnuExtra) (signed : Option SignedRelease)
  | epl (secondary : Option String)
deriving DecidableEq

/-- Year and full name, the common first two prompts. -/
def collectBasic : GenM Answers :=
  GenM.bind (promptRun u16Parse) fun year =>
  GenM.bind (promptRun strParse) fun fullname =>
  GenM.pure (.basic year fullname)

/-- The BSD-Attribution answers: year, full name, then the optional
organization and the optional website. -/
def collectAttribution : GenM Answers :=
  GenM.bind (promptRun u16Parse) fun year =>
  GenM.bind (promptRun strParse) fun fullname =>
  GenM.bind (promptOptionalRun strParse) fun organization =>
  GenM.bind (promptOptionalRun strParse) fun website =>
  GenM.pure (.attribution year fullname organization website)

/-- Modelled from the spec: the AGPL/GPL-only prompts (optional
program version, short description, interactive yes/no), skipped for
LGPL. -/
def collectGnuExtra (isLgpl : Bool) : GenM (Option GnuExtra) :=
  if isLgpl then GenM.pure none
  else
    GenM.bind (promptOptionalRun strParse) fun version =>
    GenM.bind (promptRun strParse) fun description =>
    GenM.bind (promptRun boolParse) fun interactive =>
    GenM.pure (some ⟨version, description, interactive⟩)

/-- Modelled from the spec: the signed-release question and, when
answered yes, the organization, signer, position and signing date. -/
def collectSignedRelease : GenM (Option SignedRelease) :=
  GenM.bind (promptRun boolParse) fun signed =>
  if signed then
    GenM.bind (promptRun strParse) fun organization =>
    GenM.bind (promptRun strParse) fun signer =>
    GenM.bind (promptRun strParse) fun position =>
    GenM.bind (promptRun u16Parse) fun day =>
    GenM.bind (promptRun strParse) fun month =>
    GenM.bind (promptRun u16Parse) fun year =>
    GenM.pure (some ⟨organization, signer, position, day, month, year⟩)
  else GenM.pure none

/-- Modelled from the spec: the GNU prompt sequence (year, full name,
program name, the AGPL/GPL-only block, the signed-release block). -/
def collectGnu (isLgpl : Bool) : GenM Answers :=
  GenM.bind (promptRun u16Parse) fun year =>
  GenM.bind (promptRun strParse) fun fullname =>
  GenM.bind (promptRun strParse) fun progName =>
  GenM.bind (collectGnuExtra isLgpl) fun extra =>
  GenM.bind collectSignedRelease fun signed =>
  GenM.pure (.gnu year fullname progName extra signed)

/-- Modelled from the spec: the single optional EPL prompt for the
comma-separated secondary license list. -/
def collectEpl : GenM Answers :=
  GenM.bind (promptOptionalRun strParse) fun secondary =>
  GenM.pure (.epl secondary)

/-- The prompt sequence of each variant. -/
def collectAnswers : Licenses → GenM Answers
  | .Mit => collectBasic
  | .Agpl3 _ => collectGnu false
  | .Gpl3 _ => collectGnu false
  | .Lgpl3 _ => collectGnu true
  | .Apache2 => collectBasic
  | .Bsl1 => collectBasic
  | .Unlicense => collectBasic
  | .Cddl1 => collectBasic
  | .Epl2 => collectEpl
  | .Mpl2 => collectBasic
  | .Bsd3Clause .attribution => collectAttribution
  | .Bsd3Clause _ => collectBasic

/-- The GNU families. -/
inductive GnuFamily where
  | agpl
  | gpl
  | lgpl
deriving DecidableEq

/-- Display root of a GNU family. -/
def GnuFamily.fmt : GnuFamily → String
  | .agpl => "AGPL-3.0"
  | .gpl => "GPL-3.0"
  | .lgpl => "LGPL-3.0"

/-- Modelled from the spec: the GNU rendering.  The body skeleton is
abridged; the comment carries the SPDX line and the GNU-style
copyright line; a signed release adds the fixed disclaimer amendment
parameterized by organization, signer, position and date; an
interactive program adds the runtime notice built from the program
name, version, year and full name. -/
def generate_gnu_license (fam : GnuFamily) (amend : VersionAmmendment)
    (year : Nat) (fullname progName : String)
    (extra : Option GnuExtra) (signed : Option SignedRelease) : LicenseTexts :=
  { text := fam.fmt ++ amend.fmt ++ " license body for " ++ progName ++
      (match extra with
       | some e => " - " ++ e.description
       | none => "") ++ "\n"
    comment := "SPDX-License-Identifier: " ++ fam.fmt ++ amend.fmt ++
      "\nCopyright (C) " ++ toString year ++ " " ++ fullname
    alt := signed.map (fun s =>
      s.organization ++ ", hereby disclaims all copyright interest in the program \x27" ++
      progName ++ "\x27.\n\n" ++ s.signer ++ ", " ++ s.position ++ ", " ++
      toString s.day ++ " " ++ s.month ++ " " ++ toString s.year)
    interactive :=
      match extra with
      | some e =>
        if e.interactive then
          some (progName ++ " version " ++ e.version.getD "" ++ ", Copyright (C) " ++
            toString year ++ " " ++ fullname ++ "\n" ++ progName ++
            " comes with ABSOLUTELY NO WARRANTY.")
        else none
      | none => none }

/-- Modelled from the spec: the Apache rendering; the comment carries
the SPDX line and the bare copyright line. -/
def generate_apache_license (year : Nat) (fullname : String) : LicenseTexts :=
  { text := "Apache License, Version 2.0 body\n"
    comment := "SPDX-License-Identifier: Apache-2.0\nCopyright " ++
      toString year ++ " " ++ fullname
    alt := none
    interactive := none }

/-- Modelled from the spec: a plain fixed-skeleton rendering used for
BSL, Unlicense, CDDL and MPL. -/
def generate_plain_license (ident : String) (year : Nat) (fullname : String) : LicenseTexts :=
  { text := ident ++ " license body\nCopyright (c) " ++ toString year ++ " " ++ fullname ++ "\n"
    comment := "SPDX-License-Identifier: " ++ ident
    alt := none
    interactive := none }

/-- Modelled from the spec: the EPL rendering; a non-empty secondary
list produces an amendment block with one dash-prefixed line per
comma-separated entry, in input order. -/
def generate_epl_license (secondary : Option String) : LicenseTexts :=
  { text := "EPL-2.0 license body\n"
    comment := "SPDX-License-Identifier: EPL-2.0"
    alt := secondary.map (fun s =>
      "This Source Code may also be made available under the following Secondary Licenses:\n" ++
      joinWith "\n" ((splitComma s).map (fun e => "- " ++ rustTrim e)))
    interactive := none }

/-- The pure rendering of each variant from its collected answers.
The mismatched-constructor arms are unreachable for answers collected
by `collectAnswers`. -/
def renderAnswers : Licenses → Answers → LicenseTexts
  | .Mit, .basic y n => generate_mit_license y n
  | .Agpl3 a, .gnu y n p e s => generate_gnu_license .agpl a y n p e s
  | .Gpl3 a, .gnu y n p e s => generate_gnu_license .gpl a y n p e s
  | .Lgpl3 a, .gnu y n p e s => generate_gnu_license .lgpl a y n p e s
  | .Apache2, .basic y n => generate_apache_license y n
  | .Bsl1, .basic y n => generate_plain_license "BSL-1.0" y n
  | .Unlicense, .basic y n => generate_plain_license "Unlicense" y n
  | .Cddl1, .basic y n => generate_plain_license "CDDL-1.0" y n
  | .Epl2, .epl sec => generate_epl_license sec
  | .Mpl2, .basic y n => generate_plain_license "MPL-2.0" y n
  | .Bsd3Clause .none, .basic y n => generate_base_license y n
  | .Bsd3Clause .modification, .basic y n => generate_modification_license y n
  | .Bsd3Clause .noMilitary, .basic y n => generate_no_military_license y n
  | .Bsd3Clause .attribution, .attribution y n o w => generate_attribution_license y n o w
  | _, _ => ⟨"", "", none, none⟩

/-- `generate_bsd_license`: year and full name are prompted first, the
Attribution variant then asks its two optional questions, and the
selected fragments are rendered. -/
def generate_bsd_license (a : BsdAmmendment) : GenM LicenseTexts :=
  GenM.bind (promptRun u16Parse) fun year =>
  GenM.bind (promptRun strParse) fun fullname =>
  match a with
  | .none => GenM.pure (generate_base_license year fullname)
  | .attribution =>
    GenM.bind (promptOptionalRun strParse) fun organization =>
    GenM.bind (promptOptionalRun strParse) fun website =>
    GenM.pure (generate_attribution_license year fullname organization website)
  | .modification => GenM.pure (generate_modification_license year fullname)
  | .noMilitary => GenM.pure (generate_no_military_license year fullname)

/-- `generate_mit_license` as run against the channel: its two prompts
followed by the pure rendering. -/
def generate_mit_run : GenM LicenseTexts :=
  GenM.bind (promptRun u16Parse) fun year =>
  GenM.bind (promptRun strParse) fun fullname =>
  GenM.pure (generate_mit_license year fullname)

/-- Modelled from the spec: a missing family generator, prompting year
and full name and rendering its fixed skeleton. -/
def generate_year_name_run (render : Nat → String → LicenseTexts) : GenM LicenseTexts :=
  GenM.bind (promptRun u16Parse) fun year =>
  GenM.bind (promptRun strParse) fun fullname =>
  GenM.pure (render year fullname)

/-- Modelled from the spec: the GNU generator, prompting per the
Prompt Protocol section and rendering. -/
def generate_gnu_run (fam : GnuFamily) (amend : VersionAmmendment) : GenM LicenseTexts :=
  GenM.bind (promptRun u16Parse) fun year =>
  GenM.bind (promptRun strParse) fun fullname =>
  GenM.bind (promptRun strParse) fun progName =>
  GenM.bind (collectGnuExtra (fam == .lgpl)) fun extra =>
  GenM.bind collectSignedRelease fun signed =>
  GenM.pure (generate_gnu_license fam amend year fullname progName extra signed)

/-- Modelled from the spec: the EPL generator. -/
def generate_epl_run : GenM LicenseTexts :=
  GenM.bind (promptOptionalRun strParse) fun secondary =>
  GenM.pure (generate_epl_license secondary)

/-- `generate_license_text`: the dispatch on the selected variant. -/
def generate_license_text : Licenses → GenM LicenseTexts
  | .Mit => generate_mit_run
  | .Agpl3 a => generate_gnu_run .agpl a
  | .Gpl3 a => generate_gnu_run .gpl a
  | .Lgpl3 a => generate_gnu_run .lgpl a
  | .Apache2 => generate_year_name_run generate_apache_license
  | .Bsl1 => generate_year_name_run (generate_plain_license "BSL-1.0")
  | .Unlicense => generate_year_name_run (generate_plain_license "Unlicense")
  | .Cddl1 => generate_year_name_run (generate_plain_license "CDDL-1.0")
  | .Epl2 => generate_epl_run
  | .Mpl2 => generate_year_name_run (generate_plain_license "MPL-2.0")
  | .Bsd3Clause a => generate_bsd_license a

/-- Map over the value of a run outcome. -/
def RunOut.mapO {α β : Type} (g : α → β) : RunOut α → RunOut β
  | .ok a rest => .ok (g a) rest
  | .exited => .exited
  | .pending => .pending

/-! ## Lemmas about line splitting -/

theorem unlines_nil : unlines [] = [] := rfl

theorem unlines_cons (x : List Char) (xs : List (List Char)) :
    unlines (x :: xs) = x ++ '\n' :: unlines xs := by
  simp [unlines, List.append_assoc]

theorem stripCR_of_not_mem {l : List Char} (h : '\r' ∉ l) : stripCR l = l := by
  rw [stripCR, if_neg]
  intro heq
  obtain ⟨hne, hx⟩ := List.mem_getLast?_eq_getLast (l := l) (x := '\r') heq
  exact h (hx ▸ List.getLast_mem hne)

theorem unlines_rustLinesAux :
    ∀ (s acc : List Char), '\r' ∉ s → '\r' ∉ acc → (s = [] → acc = []) →
    (s = [] ∨ ∃ t, s = t ++ ['\n']) →
    unlines (rustLinesAux acc s) = acc.reverse ++ s := by
  intro s
  induction s with
  | nil =>
    intro acc _ _ hnil _
    simp [rustLinesAux, hnil rfl, unlines]
  | cons c rest ih =>
    intro acc hcr hcracc _ hend
    rcases hend with h | ⟨t, ht⟩
    · exact absurd h (List.cons_ne_nil c rest)
    simp only [List.mem_cons, not_or] at hcr
    by_cases hc : c = '\n'
    · subst hc
      have hrest : rest = [] ∨ ∃ u, rest = u ++ ['\n'] := by
        cases t with
        | nil => simp at ht; simp [ht]
        | cons a t' =>
          simp only [List.cons_append, List.cons.injEq] at ht
          exact Or.inr ⟨t', ht.2⟩
      rw [show rustLinesAux acc ('\n' :: rest) =
            stripCR acc.reverse :: rustLinesAux [] rest from by simp [rustLinesAux]]
      rw [unlines_cons, stripCR_of_not_mem (by simpa using hcracc),
        ih [] hcr.2 (by simp) (fun _ => rfl) hrest]
      simp
    · have ht' : ∃ u, rest = u ++ ['\n'] := by
        cases t with
        | nil =>
          simp only [List.nil_append, List.cons.injEq] at ht
          exact absurd ht.1 hc
        | cons a t' =>
          simp only [List.cons_append, List.cons.injEq] at ht
          exact ⟨t', ht.2⟩
      obtain ⟨u, hu⟩ := ht'
      have hrne : rest ≠ [] := by simp [hu]
      rw [show rustLinesAux acc (c :: rest) = rustLinesAux (c :: acc) rest from by
            simp [rustLinesAux, hc]]
      rw [ih (c :: acc) hcr.2
            (by simp only [List.mem_cons, not_or]; exact ⟨hcr.1, hcracc⟩)
            (fun h => absurd h hrne) (Or.inr ⟨u, hu⟩)]
      simp

theorem unlines_rustLines {s : List Char} (hcr : '\r' ∉ s)
    (hend : s = [] ∨ ∃ t, s = t ++ ['\n']) :
    unlines (rustLines s) = s := by
  rw [rustLines, unlines_rustLinesAux s [] hcr (by simp) (fun _ => rfl) hend]
  simp

/-! ## Helper lemmas for the output pipeline and the generators -/

theorem iterate_dir_stops_at_first_failure (entries : List EntryOutcome) :
    iterate_dir entries =
      ((entries.takeWhile (fun e => e == EntryOutcome.okWrite)).length,
        entries.all (fun e => e == EntryOutcome.okWrite)) := by
  induction entries with
  | nil => rfl
  | cons e rest ih =>
    cases e <;> simp [iterate_dir, ih, List.takeWhile_cons, List.all_cons]

theorem GenM.bind_congr_mapO {α β γ : Type} (m : GenM α) (f : α → GenM β)
    (f' : α → GenM γ) (g : γ → β)
    (h : ∀ a ins, f a ins = RunOut.mapO g (f' a ins)) :
    ∀ ins, GenM.bind m f ins = RunOut.mapO g (GenM.bind m f' ins) := by
  intro ins
  unfold GenM.bind
  cases m ins <;> simp [RunOut.mapO, h]

theorem generate_factors :
    ∀ (v : Licenses) (ins : List ReadResult),
      generate_license_text v ins = RunOut.mapO (renderAnswers v) (collectAnswers v ins) := by
  intro v
  cases v with
  | Mit =>
    intro ins
    simp only [generate_license_text, collectAnswers, generate_mit_run, collectBasic]
    refine GenM.bind_congr_mapO _ _ _ _ (fun year ins => ?_) ins
    refine GenM.bind_congr_mapO _ _ _ _ (fun fullname ins => ?_) ins
    rfl
  | Agpl3 a =>
    intro ins
    simp only [generate_license_text, collectAnswers, generate_gnu_run, collectGnu]
    refine GenM.bind_congr_mapO _ _ _ _ (fun year ins => ?_) ins
    refine GenM.bind_congr_mapO _ _ _ _ (fun fullname ins => ?_) ins
    refine GenM.bind_congr_mapO _ _ _ _ (fun progName ins => ?_) ins
    refine GenM.bind_congr_mapO _ _ _ _ (fun extra ins => ?_) ins
    refine GenM.bind_congr_mapO _ _ _ _ (fun signed ins => ?_) ins
    rfl
  | Gpl3 a =>
    intro ins
    simp only [generate_license_text, collectAnswers, generate_gnu_run, collectGnu]
    refine GenM.bind_congr_mapO _ _ _ _ (fun year ins => ?_) ins
    refine GenM.bind_congr_mapO _ _ _ _ (fun fullname ins => ?_) ins
    refine GenM.bind_congr_mapO _ _ _ _ (fun progName ins => ?_) ins
    refine GenM.bind_congr_mapO _ _ _ _ (fun extra ins => ?_) ins
    refine GenM.bind_congr_mapO _ _ _ _ (fun signed ins => ?_) ins
    rfl
  | Lgpl3 a =>
    intro ins
    simp only [generate_license_text, collectAnswers, generate_gnu_run, collectGnu]
    refine GenM.bind_congr_mapO _ _ _ _ (fun year ins => ?_) ins
    refine GenM.bind_congr_mapO _ _ _ _ (fun fullname ins => ?_) ins
    refine GenM.bind_congr_mapO _ _ _ _ (fun progName ins => ?_) ins
    refine GenM.bind_congr_mapO _ _ _ _ (fun extra ins => ?_) ins
    refine GenM.bind_congr_mapO _ _ _ _ (fun signed ins => ?_) ins
    rfl
  | Apache2 =>
    intro ins
    simp only [generate_license_text, collectAnswers, generate_year_name_run, collectBasic]
    refine GenM.bind_congr_mapO _ _ _ _ (fun year ins => ?_) ins
    refine GenM.bind_congr_mapO _ _ _ _ (fun fullname ins => ?_) ins
    rfl
  | Bsl1 =>
    intro ins
    simp only [generate_license_text, collectAnswers, generate_year_name_run, collectBasic]
    refine GenM.bind_congr_mapO _ _ _ _ (fun year ins => ?_) ins
    refine GenM.bind_congr_mapO _ _ _ _ (fun fullname ins => ?_) ins
    rfl
  | Unlicense =>
    intro ins
    simp only [generate_license_text, collectAnswers, generate_year_name_run, collectBasic]
    refine GenM.bind_congr_mapO _ _ _ _ (fun year ins => ?_) ins
    refine GenM.bind_congr_mapO _ _ _ _ (fun fullname ins => ?_) ins
    rfl
  | Cddl1 =>
    intro ins
    simp only [generate_license_text, collectAnswers, generate_year_name_run, collectBasic]
    refine GenM.bind_congr_mapO _ _ _ _ (fun year ins => ?_) ins
    refine GenM.bind_congr_mapO _ _ _ _ (fun fullname ins => ?_) ins
    rfl
  | Epl2 =>
    intro ins
    simp only [generate_license_text, collectAnswers, generate_epl_run, collectEpl]
    refine GenM.bind_congr_mapO _ _ _ _ (fun secondary ins => ?_) ins
    rfl
  | Mpl2 =>
    intro ins
    simp only [generate_license_text, collectAnswers, generate_year_name_run, collectBasic]
    refine GenM.bind_congr_mapO _ _ _ _ (fun year ins => ?_) ins
    refine GenM.bind_congr_mapO _ _ _ _ (fun fullname ins => ?_) ins
    rfl
  | Bsd3Clause a =>
    cases a with
    | none =>
      intro ins
      simp only [generate_license_text, collectAnswers, generate_bsd_license, collectBasic]
      refine GenM.bind_congr_mapO _ _ _ _ (fun year ins => ?_) ins
      refine GenM.bind_congr_mapO _ _ _ _ (fun fullname ins => ?_) ins
      rfl
    | attribution =>
      intro ins
      simp only [generate_license_text, collectAnswers, generate_bsd_license,
        collectAttribution]
      refine GenM.bind_congr_mapO _ _ _ _ (fun year ins => ?_) ins
      refine GenM.bind_congr_mapO _ _ _ _ (fun fullname ins => ?_) ins
      refine GenM.bind_congr_mapO _ _ _ _ (fun organization ins => ?_) ins
      refine GenM.bind_congr_mapO _ _ _ _ (fun website ins => ?_) ins
      rfl
    | modification =>
      intro ins
      simp only [generate_license_text, collectAnswers, generate_bsd_license, collectBasic]
      refine GenM.bind_congr_mapO _ _ _ _ (fun year ins => ?_) ins
      refine GenM.bind_congr_mapO _ _ _ _ (fun fullname ins => ?_) ins
      rfl
    | noMilitary =>
      intro ins
      simp only [generate_license_text, collectAnswers, generate_bsd_license, collectBasic]
      refine GenM.bind_congr_mapO _ _ _ _ (fun year ins => ?_) ins
      refine GenM.bind_congr_mapO _ _ _ _ (fun fullname ins => ?_) ins
      rfl

/-! ## The claims -/

/-- C1: the claim says `write_comment` never passes through a state in
which the original content is gone from the target path without the
replacement being in place there.  The code removes the target before
renaming the temporary file, so the trace contains a state whose
target path holds nothing: interrupting there leaves the file neither
fully original nor fully replaced.  Evaluated at comment marker `//`,
an SPDX comment block and a one-line file. -/
theorem write_comment_remove_window_loses_original :
    FsState.mk none (some (write_comment_bytes "//".data
        "SPDX-License-Identifier: MIT".data "x\n".data)) ∈
      write_comment_trace "//".data "SPDX-License-Identifier: MIT".data "x\n".data ∧
    ¬ write_comment_atomic "//".data "SPDX-License-Identifier: MIT".data "x\n".data := by
  constructor
  · decide
  · unfold write_comment_atomic
    decide

/-- C2: the claim says every variant embeds its own display string in
the SPDX comment header.  For the No-Military amendment the display
string (also used as the CLI selector and asserted by the test suite)
is `BSD-3-Clause-No-Military-License`, while the generated comment
says `BSD-3-Clause-No-Military`; the two differ. -/
theorem no_military_comment_differs_from_display :
    (Licenses.Bsd3Clause .noMilitary).fmt = "BSD-3-Clause-No-Military-License" ∧
    (generate_no_military_license 2025 "Your Name").comment =
      "SPDX-License-Identifier: BSD-3-Clause-No-Military" ∧
    (generate_no_military_license 2025 "Your Name").comment ≠
      "SPDX-License-Identifier: " ++ (Licenses.Bsd3Clause .noMilitary).fmt := by
  refine ⟨rfl, rfl, ?_⟩
  decide

/-- C3 counterexample: the claim says an annotation failure stops the
invocation before the license file is written.  With a directory whose
first entry fails, the remaining entry is indeed skipped, but `output`
falls through and still writes the license file. -/
theorem output_entry_failure_still_writes_license :
    (outputRun true (.dir true [.failWrite, .okWrite]) true true true).annotFailed = true ∧
    (outputRun true (.dir true [.failWrite, .okWrite]) true true true).annotated = 0 ∧
    (outputRun true (.dir true [.failWrite, .okWrite]) true true true).licenseWritten = true := by
  decide

/-- C3 as amended: a missing source path, a source path that is
neither file nor directory, or a failed single-file annotation aborts
before the license file is written; a failure inside directory
iteration (unreadable directory, unreadable entry or failed entry
write) stops annotating at the first failing entry but the license
file is still written afterwards. -/
theorem output_failure_scoping :
    ∀ (openOk writeOk flushOk : Bool) (entries : List EntryOutcome),
      (outputRun true .missing openOk writeOk flushOk).licenseWritten = false ∧
      (outputRun true .other openOk writeOk flushOk).licenseWritten = false ∧
      (outputRun true (.file false) openOk writeOk flushOk).licenseWritten = false ∧
      (outputRun true (.dir true entries) openOk writeOk flushOk).annotated =
        (entries.takeWhile (fun e => e == EntryOutcome.okWrite)).length ∧
      (outputRun true (.dir true entries) openOk writeOk flushOk).annotFailed =
        !(entries.all (fun e => e == EntryOutcome.okWrite)) ∧
      (outputRun true (.dir true entries) openOk writeOk flushOk).licenseWritten =
        (openOk && writeOk) ∧
      (outputRun true (.dir false entries) openOk writeOk flushOk).annotated = 0 ∧
      (outputRun true (.dir false entries) openOk writeOk flushOk).annotFailed = true ∧
      (outputRun true (.dir false entries) openOk writeOk flushOk).licenseWritten =
        (openOk && writeOk) := by
  intro openOk writeOk flushOk entries
  refine ⟨rfl, rfl, rfl, ?_, ?_, rfl, rfl, rfl, rfl⟩ <;>
    simp [outputRun, iterate_dir_stops_at_first_failure]

/-- C4 counterexample: the claim says the annotated file ends with the
original content byte for byte.  A file whose content lacks a final
newline is rewritten with one appended, so the result differs from
the comment block followed by the original bytes. -/
theorem write_comment_rewrites_unterminated_tail :
    write_comment_bytes "//".data "SPDX-License-Identifier: MIT".data "x".data ≠
      unlines ((rustLines "SPDX-License-Identifier: MIT".data).map
        (fun l => "//".data ++ ' ' :: l)) ++ "x".data := by
  decide

/-- C4 as amended: the annotated file is one line per comment-block
line, each comment marker, space, line, newline, followed by the
original content re-emitted line by line with newline terminators —
byte-identical to the original whenever the original has no carriage
returns and is empty or newline-terminated (a missing final newline
is appended, and a CRLF line ending is normalized to LF). -/
theorem write_comment_output_shape :
    ∀ (comment block orig : List Char), '\r' ∉ orig →
      (orig = [] ∨ ∃ t, orig = t ++ ['\n']) →
      write_comment_bytes comment block orig =
        unlines ((rustLines block).map (fun l => comment ++ ' ' :: l)) ++ orig := by
  intro comment block orig hcr hend
  rw [write_comment_bytes, unlines_rustLines hcr hend]

/-- Witness for the amended C4 at a newline-terminated one-line file. -/
theorem write_comment_output_shape_witness :
    write_comment_bytes "//".data "SPDX-License-Identifier: MIT".data "x\n".data =
      unlines ((rustLines "SPDX-License-Identifier: MIT".data).map
        (fun l => "//".data ++ ' ' :: l)) ++ "x\n".data :=
  write_comment_output_shape "//".data "SPDX-License-Identifier: MIT".data "x\n".data
    (by decide) (Or.inr ⟨"x".data, by decide⟩)

/-- C5 counterexample: the claim says a closed operator channel makes
a prompt fail with a fatal I/O error.  End of input is `Ok(0)` with an
empty buffer, not an error: for a parser rejecting the empty string
(here the year parser) the loop retries instead of exiting, and stays
pending after any number of end-of-input reads. -/
theorem prompt_eof_retries_not_exits :
    promptStep u16Parse ReadResult.eof ≠ StepResult.exit ∧
    promptRun u16Parse (List.replicate 5 ReadResult.eof) = RunOut.pending := by
  constructor
  · decide
  · decide

/-- C5 as amended: a read error exits the process; end of input is
delivered as an empty line, so a required prompt parses the empty
string — returning its value when that parses and re-asking forever
when it does not — and an optional prompt returns absence. -/
theorem prompt_closed_channel_behavior :
    (∀ (α : Type) (parse : String → Option α),
      promptStep parse ReadResult.err = StepResult.exit) ∧
    (∀ (α : Type) (parse : String → Option α), parse "" = none →
      ∀ n, promptRun parse (List.replicate n ReadResult.eof) = RunOut.pending) ∧
    (∀ (α : Type) (parse : String → Option α) (v : α), parse "" = some v →
      ∀ rest, promptRun parse (ReadResult.eof :: rest) = RunOut.ok v rest) ∧
    (∀ (α : Type) (parse : String → Option α) (rest : List ReadResult),
      promptOptionalRun parse (ReadResult.eof :: rest) = RunOut.ok none rest) := by
  refine ⟨fun α parse => rfl, ?_, ?_, ?_⟩
  · intro α parse h n
    induction n with
    | zero => rfl
    | succ n ih => simp [List.replicate_succ, promptRun, promptStep, h, ih]
  · intro α parse v h rest
    simp [promptRun, promptStep, h]
  · intro α parse rest
    rfl

/-- Witness for the amended C5: the year parser rejects the empty
string and stays pending; the string parser accepts it and returns;
the optional prompt returns absence. -/
theorem prompt_closed_channel_behavior_witness :
    promptRun u16Parse (List.replicate 3 ReadResult.eof) = RunOut.pending ∧
    promptRun strParse (ReadResult.eof :: []) = RunOut.ok "" [] ∧
    promptOptionalRun strParse [ReadResult.eof] = RunOut.ok none [] :=
  ⟨prompt_closed_channel_behavior.2.1 Nat u16Parse (by decide) 3,
   prompt_closed_channel_behavior.2.2.1 String strParse "" rfl [],
   prompt_closed_channel_behavior.2.2.2 String strParse []⟩

/-- C6: resolving the display string of any of the twenty catalog
variants yields that variant again. -/
theorem resolve_display_roundtrip :
    ∀ v ∈ Licenses.value_variants, Licenses.resolve v.fmt = some v := by
  decide

/-- Witness for C6 at the MIT variant. -/
theorem resolve_display_roundtrip_witness :
    Licenses.resolve (Licenses.fmt .Mit) = some Licenses.Mit :=
  resolve_display_roundtrip Licenses.Mit (by decide)

/-- C7: a required prompt re-asks on every unparseable line, however
many there are, and returns the first parsed value; an optional prompt
returns absence at once on a line that trims to empty, for every
parser (so no parse of the empty answer is attempted). -/
theorem prompt_retry_until_parse :
    (∀ (α : Type) (parse : String → Option α) (bads : List String) (good : String)
       (v : α) (rest : List ReadResult),
       (∀ b ∈ bads, parse (rustTrim b) = none) → parse (rustTrim good) = some v →
       promptRun parse (bads.map ReadResult.line ++ ReadResult.line good :: rest) =
         RunOut.ok v rest) ∧
    (∀ (α : Type) (parse : String → Option α) (s : String) (rest : List ReadResult),
       rustTrim s = "" →
       promptOptionalRun parse (ReadResult.line s :: rest) = RunOut.ok none rest) := by
  constructor
  · intro α parse bads good v rest hbad hgood
    induction bads with
    | nil => simp [promptRun, promptStep, hgood]
    | cons b bs ih =>
      have hb := hbad b (List.mem_cons_self b bs)
      simp only [List.map_cons, List.cons_append, promptRun, promptStep, hb]
      exact ih (fun x hx => hbad x (List.mem_cons_of_mem b hx))
  · intro α parse s rest hs
    simp [promptOptionalRun, promptOptionalStep, hs]

/-- Witness for C7: one rejected line before a parsed year, and a
whitespace-only answer to an optional prompt. -/
theorem prompt_retry_until_parse_witness :
    promptRun u16Parse [ReadResult.line "abc", ReadResult.line "42"] = RunOut.ok 42 [] ∧
    promptOptionalRun u16Parse [ReadResult.line "   "] = RunOut.ok none [] :=
  ⟨prompt_retry_until_parse.1 Nat u16Parse ["abc"] "42" 42 [] (by decide) (by decide),
   prompt_retry_until_parse.2 Nat u16Parse "   " [] (by decide)⟩

/-- C8: for BSD-3-Clause-Attribution with year 2025, full name
`Your Name`, organization `ACME, Inc.` and website
`https://acme.example.com`, the rendered fourth clause contains the
organization and the website enclosed in parentheses, that clause is
part of the rendered text, and the comment is the Attribution SPDX
line. -/
theorem attribution_scenario :
    ("ACME, Inc.".data <:+: (attribution_fourth "Your Name" (some "ACME, Inc.")
        (some "https://acme.example.com")).data) ∧
    ((" (" ++ "https://acme.example.com" ++ ")").data <:+:
      (attribution_fourth "Your Name" (some "ACME, Inc.")
        (some "https://acme.example.com")).data) ∧
    ((attribution_fourth "Your Name" (some "ACME, Inc.")
        (some "https://acme.example.com")).data <:+:
      (generate_attribution_license 2025 "Your Name" (some "ACME, Inc.")
        (some "https://acme.example.com")).text.data) ∧
    (generate_attribution_license 2025 "Your Name" (some "ACME, Inc.")
        (some "https://acme.example.com")).comment =
      "SPDX-License-Identifier: BSD-3-Clause-Attribution" := by
  refine ⟨⟨attr_ack_open.data,
      ("\"" ++ (" (" ++ "https://acme.example.com" ++ ")") ++ ".\x27").data, ?_⟩,
    ⟨(attr_ack "Your Name" (some "ACME, Inc.")).data, ".\x27".data, ?_⟩,
    ⟨(bsd_text_head 2025 "Your Name").data, (bsd_text_tail ++ "\n").data, ?_⟩, rfl⟩
  · simp [attribution_fourth, attr_ack, hb_truthy, String.data_append, List.append_assoc]
  · simp [attribution_fourth, hb_truthy, String.data_append, List.append_assoc]
  · simp [generate_attribution_license, bsd_text, String.append_empty,
      String.data_append, List.append_assoc]

/-- C10: in the Attribution fourth clause, an absent organization is
rendered exactly as if the organization were the copyright holder full
name; a present non-empty website is rendered as a parenthesized
suffix after the acknowledgment, and an absent website omits that
parenthesized portion entirely. -/
theorem attribution_optional_fields :
    (∀ (fullname : String) (website : Option String),
       attribution_fourth fullname none website =
         attribution_fourth fullname (some fullname) website) ∧
    (∀ (fullname : String) (organization : Option String) (w : String), w ≠ "" →
       attribution_fourth fullname organization (some w) =
         attr_ack fullname organization ++ " (" ++ w ++ ")" ++ ".\x27") ∧
    (∀ (fullname : String) (organization : Option String),
       attribution_fourth fullname organization none =
         attr_ack fullname organization ++ ".\x27") := by
  refine ⟨?_, ?_, ?_⟩
  · intro fullname website
    simp [attribution_fourth, attr_ack, hb_truthy]
  · intro fullname organization w hw
    have hww : (w == "") = false := beq_eq_false_iff_ne.mpr hw
    simp [attribution_fourth, hb_truthy, hww, String.append_assoc]
  · intro fullname organization
    simp [attribution_fourth, hb_truthy, String.append_empty]

/-- Witness for C10 at the scenario values. -/
theorem attribution_optional_fields_witness :
    attribution_fourth "Your Name" (some "ACME, Inc.") (some "https://acme.example.com") =
      attr_ack "Your Name" (some "ACME, Inc.") ++ " (" ++ "https://acme.example.com" ++
        ")" ++ ".\x27" :=
  attribution_optional_fields.2.1 "Your Name" (some "ACME, Inc.")
    "https://acme.example.com" (by decide)

/-- C9: rendering is a function of the variant and the collected
answers alone: any two channel histories from which the prompts
collect the same answers make the generator produce the same
`LicenseTexts` (in particular byte-identical license text), namely the
pure rendering of those answers. -/
theorem generate_license_text_deterministic :
    ∀ (v : Licenses) (ins₁ ins₂ : List ReadResult) (a : Answers)
      (r₁ r₂ : List ReadResult),
      collectAnswers v ins₁ = RunOut.ok a r₁ →
      collectAnswers v ins₂ = RunOut.ok a r₂ →
      generate_license_text v ins₁ = RunOut.ok (renderAnswers v a) r₁ ∧
      generate_license_text v ins₂ = RunOut.ok (renderAnswers v a) r₂ := by
  intro v ins₁ ins₂ a r₁ r₂ h₁ h₂
  rw [generate_factors v ins₁, generate_factors v ins₂, h₁, h₂]
  exact ⟨rfl, rfl⟩

/-- Witness for C9: two different MIT sessions — one clean, one with a
rejected year answer first — yield the same collected answers and the
same rendered output. -/
theorem generate_license_text_deterministic_witness :
    generate_license_text .Mit [ReadResult.line "2025", ReadResult.line "Your Name"] =
      RunOut.ok (renderAnswers .Mit (.basic 2025 "Your Name")) [] ∧
    generate_license_text .Mit
        [ReadResult.line "soon", ReadResult.line "2025", ReadResult.line "Your Name"] =
      RunOut.ok (renderAnswers .Mit (.basic 2025 "Your Name")) [] :=
  generate_license_text_deterministic .Mit
    [ReadResult.line "2025", ReadResult.line "Your Name"]
    [ReadResult.line "soon", ReadResult.line "2025", ReadResult.line "Your Name"]
    (.basic 2025 "Your Name") [] [] (by decide) (by decide)

end LicenseGen
